import Mathlib

set_option maxRecDepth 100000

/-!
Verification of the multi-signal fraud-scoring engine of `fraud_detector.py`.

Modelling conventions:
* A message is its character sequence (`List Char`); `str.lower`, `str.isupper`,
  `str.split` and the regular-expression character classes are modelled at the
  ASCII level, matching the behaviour of the source on ASCII text.
* Python `int` arithmetic is exact, so integer scores are `Nat`.
* The keyword normalisation `int((score / 50) * 100)` is evaluated by Python on
  IEEE binary64 doubles, and the double result differs from the exact rational
  value (at weight sum 29 it yields 57, the exact value being 58).  It is
  therefore modelled bit-faithfully by `f64N`, an exact round-to-nearest-even
  binary64 rounding on integer fractions.
* The fused risk score and the score and confidence of the style detector are
  written over `ℚ` with the exact values of the decimal literals; exhaustive
  enumeration of the (finite) reachable sub-score combinations shows the
  binary64 evaluation of these expressions agrees with exact rational
  arithmetic everywhere, so the rational model is extensionally faithful.
  The display-only roundings `round(x, 1)` / `round(x, 2)` applied at the JSON
  boundary are omitted from the report; the raw values are stored instead.
* Regular-expression searches are modelled by hand-rolled matchers with the
  same existence semantics (a pattern with `X{a,b}` quantifiers searches over
  all repetition counts, `.` excludes the newline character, `IGNORECASE` is
  modelled by matching lowercase patterns against the lowercased text).
-/

/-- A message, as its sequence of characters. -/
abbrev Msg := List Char

/-- Python `str.lower` (ASCII model). -/
def lowerStr (m : Msg) : Msg := m.map Char.toLower

/-! ### Exact binary64 rounding (needed for the keyword normalisation) -/

/-- Fuel-based floor of the base-2 logarithm of a positive natural. -/
def log2fuel : ℕ → ℕ → ℕ
  | 0, _ => 0
  | f + 1, n => if n ≤ 1 then 0 else 1 + log2fuel f (n / 2)

/-- Floor of the base-2 logarithm of the positive fraction `n / d`
(valid for values at least `2 ^ (-64)`). -/
def ilog2N (n d : ℕ) : ℤ := (log2fuel 200 (n * 2 ^ 64 / d) : ℤ) - 64

/-- Round the fraction `a / b` (with `b > 0`) to the nearest integer,
ties to even. -/
def rheFrac (a b : ℕ) : ℕ :=
  let q := a / b
  let r := a % b
  if 2 * r < b then q
  else if b < 2 * r then q + 1
  else if q % 2 = 0 then q else q + 1

/-- Nearest IEEE binary64 value to the positive fraction `n / d`, as a
mantissa/exponent pair `(m, e)` denoting `m * 2 ^ e` (round to nearest, ties
to even; valid in the binary64 normal range, which covers every value the
source produces). -/
def f64N (n d : ℕ) : ℕ × ℤ :=
  let e := ilog2N n d
  let s : ℤ := 52 - e
  let m := if 0 ≤ s then rheFrac (n * 2 ^ s.toNat) d else rheFrac n (d * 2 ^ (-s).toNat)
  (m, e - 52)

/-- Python `min(100, int((score / 50) * 100))` evaluated on binary64 doubles:
`score / 50` is rounded to a double, the product with `100` is rounded to a
double, and `int` truncates toward zero. -/
def kwNormalize (score : ℕ) : ℕ :=
  if score = 0 then 0
  else
    let p1 := f64N score 50
    let p2 :=
      if 0 ≤ p1.2 then f64N (p1.1 * 100 * 2 ^ p1.2.toNat) 1
      else f64N (p1.1 * 100) (2 ^ (-p1.2).toNat)
    min 100 (if 0 ≤ p2.2 then p2.1 * 2 ^ p2.2.toNat else p2.1 / 2 ^ (-p2.2).toNat)

/-! ### Pattern registry -/

/-- The weighted fraud vocabulary `FRAUD_KEYWORDS`, in the insertion order of
the dictionary of the source. -/
def FRAUD_KEYWORDS : List (Msg × ℕ) := [
  ("urgent".data, 3), ("verify".data, 2), ("suspended".data, 3), ("account".data, 2),
  ("click".data, 2), ("immediately".data, 3), ("confirm".data, 2), ("password".data, 3),
  ("otp".data, 3), ("pin".data, 3), ("bank".data, 2), ("credit card".data, 3),
  ("social security".data, 4), ("ssn".data, 4), ("prize".data, 3), ("winner".data, 3),
  ("congratulations".data, 2), ("claim".data, 2), ("refund".data, 2), ("tax".data, 2),
  ("irs".data, 3), ("government".data, 2), ("lottery".data, 3), ("inheritance".data, 3),
  ("million".data, 3), ("dollars".data, 2), ("wire transfer".data, 4), ("bitcoin".data, 3),
  ("cryptocurrency".data, 3), ("gift card".data, 4), ("amazon".data, 2), ("paypal".data, 2),
  ("venmo".data, 2), ("zelle".data, 2), ("cashapp".data, 2), ("limited time".data, 3),
  ("act now".data, 3), ("expires".data, 2), ("final notice".data, 4), ("legal action".data, 4),
  ("arrest".data, 4), ("warrant".data, 4), ("debt".data, 2), ("owed".data, 2),
  ("payment".data, 2), ("overdue".data, 3)]

/-- Strip a literal pattern from the front of a text, returning the remainder. -/
def stripLit : Msg → Msg → Option Msg
  | [], s => some s
  | _, [] => none
  | l :: ls, c :: cs => if c = l then stripLit ls cs else none

/-- Search: does the predicate hold at some start position (suffix) of the text? -/
def existsAt (p : Msg → Bool) : Msg → Bool
  | [] => p []
  | c :: cs => p (c :: cs) || existsAt p cs

/-- Does some pattern of a word list occur at the front of the text? -/
def altHere (alts : List String) (s : Msg) : Bool :=
  alts.any fun a => (stripLit a.data s).isSome

/-- Regex `X{0,g}` gap followed by a continuation: skip up to `g` arbitrary
non-newline characters (regex `.` excludes the newline), then match `p`. -/
def gapThen (p : Msg → Bool) : ℕ → Msg → Bool
  | 0, s => p s
  | g + 1, s =>
    p s ||
      match s with
      | [] => false
      | c :: cs => c ≠ '\n' && gapThen p g cs

/-- Run of exactly `k` decimal digits, returning the remainder. -/
def digitsRun : ℕ → Msg → Option Msg
  | 0, s => some s
  | _ + 1, [] => none
  | k + 1, c :: cs => if c.isDigit then digitsRun k cs else none

/-- Regex `\d{1,3}\.\d{1,3}\.\d{1,3}\.\d{1,3}` anchored at the front of the
text (an IPv4-looking literal); repetition counts are searched
nondeterministically, matching the backtracking semantics of the regex. -/
def ipv4Here (s : Msg) : Bool :=
  [1, 2, 3].any fun c1 =>
    match digitsRun c1 s with
    | none => false
    | some r1 =>
      match stripLit ".".data r1 with
      | none => false
      | some r1' =>
        [1, 2, 3].any fun c2 =>
          match digitsRun c2 r1' with
          | none => false
          | some r2 =>
            match stripLit ".".data r2 with
            | none => false
            | some r2' =>
              [1, 2, 3].any fun c3 =>
                match digitsRun c3 r2' with
                | none => false
                | some r3 =>
                  match stripLit ".".data r3 with
                  | none => false
                  | some r3' =>
                    [1, 2, 3].any fun c4 => (digitsRun c4 r3').isSome

/-- Character class `[a-z0-9-]` under `IGNORECASE` on lowercased text. -/
def freeDomainChar (c : Char) : Bool := c.isLower || c.isDigit || c = '-'

/-- Regex `[a-z0-9-]+\.suf` searched in lowercased text: for search existence
a single class character before the dot suffices. -/
def freeDomainHere (suf : String) (s : Msg) : Bool :=
  match s with
  | [] => false
  | c :: cs => freeDomainChar c && (stripLit ("." ++ suf).data cs).isSome

/-- The `SUSPICIOUS_URL_PATTERNS` list, each regex realised as a searcher on
the lowercased URL (the source searches with `re.IGNORECASE`). -/
def SUSPICIOUS_URL_PATTERNS : List (Msg → Bool) := [
  fun u => decide ("bit.ly".data <:+: u),
  fun u => decide ("tinyurl".data <:+: u),
  fun u => decide ("goo.gl".data <:+: u),
  fun u => decide ("t.co".data <:+: u),
  existsAt ipv4Here,
  existsAt (freeDomainHere "tk"),
  existsAt (freeDomainHere "ml"),
  existsAt (freeDomainHere "ga"),
  existsAt (freeDomainHere "cf"),
  existsAt (freeDomainHere "gq")]

/-- The apostrophe character (used in the wait/delay urgency pattern). -/
def apos : Char := Char.ofNat 39

/-- The `URGENCY_PATTERNS` list, each regex realised as a searcher on the
lowercased message. -/
def URGENCY_PATTERNS : List (Msg → Bool) := [
  -- within \d+ (hours?|minutes?|days?)
  existsAt fun s =>
    match stripLit "within ".data s with
    | none => false
    | some r =>
      let ds := r.takeWhile Char.isDigit
      !ds.isEmpty &&
        (match stripLit " ".data (r.drop ds.length) with
         | none => false
         | some r2 => altHere ["hour", "minute", "day"] r2),
  -- expires? (today|tonight|soon)
  existsAt fun s =>
    match stripLit "expire".data s with
    | none => false
    | some r =>
      (match stripLit "s ".data r with
       | none => false
       | some r2 => altHere ["today", "tonight", "soon"] r2) ||
      (match stripLit " ".data r with
       | none => false
       | some r2 => altHere ["today", "tonight", "soon"] r2),
  -- act (now|immediately|fast)
  existsAt fun s =>
    match stripLit "act ".data s with
    | none => false
    | some r => altHere ["now", "immediately", "fast"] r,
  fun m => decide ("limited time".data <:+: m),
  fun m => decide ("hurry".data <:+: m),
  -- don + apostrophe + t (wait|delay)
  existsAt fun s =>
    match stripLit ("don".data ++ [apos] ++ "t ".data) s with
    | none => false
    | some r => altHere ["wait", "delay"] r]

/-- The `SENSITIVE_INFO_PATTERNS` list, each regex realised as a searcher on
the lowercased message. -/
def SENSITIVE_INFO_PATTERNS : List (Msg → Bool) := [
  -- (enter|provide|confirm|verify).{0,20}(password|pin|otp|ssn|social security)
  existsAt fun s =>
    ["enter", "provide", "confirm", "verify"].any fun v =>
      match stripLit v.data s with
      | none => false
      | some r =>
        gapThen (altHere ["password", "pin", "otp", "ssn", "social security"]) 20 r,
  -- (click|tap).{0,30}(link|here|below)
  existsAt fun s =>
    ["click", "tap"].any fun v =>
      match stripLit v.data s with
      | none => false
      | some r => gapThen (altHere ["link", "here", "below"]) 30 r,
  -- reply.{0,20}(with|your).{0,20}(password|pin|otp|code)
  existsAt fun s =>
    match stripLit "reply".data s with
    | none => false
    | some r =>
      gapThen
        (fun r2 =>
          ["with", "your"].any fun v =>
            match stripLit v.data r2 with
            | none => false
            | some r3 => gapThen (altHere ["password", "pin", "otp", "code"]) 20 r3)
        20 r]

/-! ### The five detectors -/

/-- `analyze_keywords`: lowercase the message, sum the weights of the table
entries contained in it as substrings, normalise to 0-100 via the binary64
evaluation of `int((score / 50) * 100)`, and return the matched keywords in
table order. -/
def analyze_keywords (message : Msg) : ℕ × List Msg :=
  let message_lower := lowerStr message
  let matched := FRAUD_KEYWORDS.filter fun p => decide (p.1 <:+: message_lower)
  (kwNormalize (matched.map Prod.snd).sum, matched.map Prod.fst)

/-- One step of the findall scan for `https?://[^\s]+`: try to match a URL
at the front of the text; on success return the matched URL and the remainder. -/
def tryUrl (s : Msg) : Option (Msg × Msg) :=
  match stripLit "http".data s with
  | none => none
  | some r1 =>
    let cont := fun (pre : String) (r : Msg) =>
      match stripLit "://".data r with
      | none => none
      | some r2 =>
        let body := r2.takeWhile fun c => !c.isWhitespace
        if body.isEmpty then none
        else some (pre.data ++ "://".data ++ body, r2.drop body.length)
    match r1 with
    | 's' :: r2 =>
      match cont "https" r2 with
      | some x => some x
      | none => cont "http" r1
    | _ => cont "http" r1

/-- Fuel-driven scan implementing the findall of `https?://[^\s]+`:
leftmost matches, continuing after each match. -/
def findUrlsF : ℕ → Msg → List Msg
  | 0, _ => []
  | _ + 1, [] => []
  | f + 1, c :: cs =>
    match tryUrl (c :: cs) with
    | some (url, rest) => url :: findUrlsF f rest
    | none => findUrlsF f cs

/-- All URLs of the message, in order of occurrence. -/
def findUrls (message : Msg) : List Msg := findUrlsF (message.length + 1) message

/-- `analyze_urls`: extract the URLs, keep those matching at least one
suspicious pattern, and score `min(100, 40 * count)`. -/
def analyze_urls (message : Msg) : ℕ × List Msg :=
  let suspicious_urls :=
    (findUrls message).filter fun url =>
      SUSPICIOUS_URL_PATTERNS.any fun p => p (lowerStr url)
  (min 100 (suspicious_urls.length * 40), suspicious_urls)

/-- `analyze_urgency`: 20 points per urgency pattern found, capped at 100. -/
def analyze_urgency (message : Msg) : ℕ :=
  min 100 (20 * (URGENCY_PATTERNS.countP fun p => p (lowerStr message)))

/-- `analyze_sensitive_requests`: 30 points per sensitive-information pattern
found, capped at 100. -/
def analyze_sensitive_requests (message : Msg) : ℕ :=
  min 100 (30 * (SENSITIVE_INFO_PATTERNS.countP fun p => p (lowerStr message)))

/-! ### Heuristic style detector (`simple_nlp_fraud_score`) -/

/-- Python `str.split()` with no arguments: split on runs of whitespace,
discarding empty pieces. -/
def splitWsAux : Msg → Msg → List Msg
  | [], acc => if acc.isEmpty then [] else [acc.reverse]
  | c :: cs, acc =>
    if c.isWhitespace then
      if acc.isEmpty then splitWsAux cs [] else acc.reverse :: splitWsAux cs []
    else splitWsAux cs (c :: acc)

/-- Python `message.split()`. -/
def splitWs (message : Msg) : List Msg := splitWsAux message []

/-- Python `str.isupper` (ASCII model): at least one cased character and no
lowercase character. -/
def pyIsUpper (w : Msg) : Bool := w.any Char.isAlpha && w.all fun c => !c.isLower

/-- Check 1: the message contains two or more exclamation marks. -/
def nlpCheck1 (message : Msg) : Bool := decide (2 ≤ message.count '!')

/-- Check 2: the message has two or more all-caps words longer than two
characters (`w.isupper() and len(w) > 2`). -/
def nlpCheck2 (message : Msg) : Bool :=
  decide (2 ≤ ((splitWs message).filter fun w => pyIsUpper w && decide (2 < w.length)).length)

/-- Substring containment of any of the given lowercase words. -/
def anyWordIn (ws : List String) (lowered : Msg) : Bool :=
  ws.any fun w => decide (w.data <:+: lowered)

/-- Check 3: urgency language. -/
def nlpCheck3 (message : Msg) : Bool :=
  anyWordIn ["urgent", "immediately", "now", "hurry"] (lowerStr message)

/-- Check 4: request for action. -/
def nlpCheck4 (message : Msg) : Bool :=
  anyWordIn ["click", "verify", "confirm", "update"] (lowerStr message)

/-- Check 5: threats or consequences. -/
def nlpCheck5 (message : Msg) : Bool :=
  anyWordIn ["suspend", "close", "block", "arrest", "legal"] (lowerStr message)

/-- Check 6: financial terms. -/
def nlpCheck6 (message : Msg) : Bool :=
  anyWordIn ["account", "bank", "payment", "refund", "prize"] (lowerStr message)

/-- The fraud-indicator count of `simple_nlp_fraud_score`: one point per
satisfied check, out of `total_checks = 6`. -/
def fraudIndicators (message : Msg) : ℕ :=
  (cond (nlpCheck1 message) 1 0) + (cond (nlpCheck2 message) 1 0) +
    (cond (nlpCheck3 message) 1 0) + (cond (nlpCheck4 message) 1 0) +
    (cond (nlpCheck5 message) 1 0) + (cond (nlpCheck6 message) 1 0)

/-- `simple_nlp_fraud_score`: returns `(fraud_score, label, confidence)`.
The score is `(fraud_indicators / total_checks) * 100` with `total_checks = 6`;
the label and confidence follow the 60/40 thresholds of the source. -/
def simple_nlp_fraud_score (message : Msg) : ℚ × Msg × ℚ :=
  let fraud_score : ℚ := (fraudIndicators message : ℚ) / 6 * 100
  if (60 : ℚ) ≤ fraud_score then (fraud_score, "fraud".data, fraud_score / 100)
  else if (40 : ℚ) ≤ fraud_score then
    (fraud_score, "suspicious".data, (0.5 : ℚ) + (fraud_score - 40) / 40 * (0.3 : ℚ))
  else (fraud_score, "safe".data, 1 - fraud_score / 100)

/-! ### Risk fusion, explanations and the report -/

/-- The weighted fusion `int(nlp*0.4 + keyword*0.25 + url*0.2 + urgency*0.1 +
sensitive*0.05)` of `detect_fraud`, with the decimal coefficients taken
exactly (the binary64 evaluation agrees with the exact one on every reachable
sub-score combination). -/
def fuse_risk (nlp_score : ℚ) (keyword_score url_score urgency_score sensitive_score : ℕ) : ℕ :=
  (⌊nlp_score * (0.4 : ℚ) + (keyword_score : ℚ) * (0.25 : ℚ) + (url_score : ℚ) * (0.2 : ℚ) +
      (urgency_score : ℚ) * (0.1 : ℚ) + (sensitive_score : ℚ) * (0.05 : ℚ)⌋).toNat

/-- The classification threshold of `detect_fraud`. -/
def classify_risk (risk_score : ℕ) : Msg :=
  if 50 ≤ risk_score then "fraud".data else "safe".data

/-- Round a rational to the nearest integer, ties to even (the rounding of
the float formatting of Python; no reachable style score is a tie). -/
def rhe (q : ℚ) : ℤ :=
  let fl := ⌊q⌋
  if q - fl < (1 : ℚ) / 2 then fl
  else if (1 : ℚ) / 2 < q - fl then fl + 1
  else if fl % 2 = 0 then fl else fl + 1

/-- Decimal digits of a natural number, most significant first. -/
def natToCharsAux : ℕ → ℕ → List Char
  | 0, _ => []
  | f + 1, n =>
    if n < 10 then [Char.ofNat (48 + n)]
    else natToCharsAux f (n / 10) ++ [Char.ofNat (48 + n % 10)]

/-- Decimal rendering of a natural number. -/
def natToChars (n : ℕ) : List Char := natToCharsAux (n + 1) n

/-- Python join with a comma-space separator. -/
def joinSep (sep : Msg) : List Msg → Msg
  | [] => []
  | [x] => x
  | x :: xs => x ++ sep ++ joinSep sep xs

/-- The fallback explanation. -/
def fallbackExpl : Msg := "No significant fraud indicators detected".data

/-- The explanation generator of `detect_fraud`: one entry per fired
condition, in source order, with the fallback when none fired.
`{nlp_score:.0f}` is modelled by round-half-even to an integer. -/
def build_explanations (nlp_score : ℚ) (keyword_matches suspicious_urls : List Msg)
    (urgency_score sensitive_score : ℕ) : List Msg :=
  let e1 :=
    if (60 : ℚ) ≤ nlp_score then
      ["AI detected high fraud probability (".data ++ natToChars (rhe nlp_score).toNat ++ "%)".data]
    else []
  let e2 :=
    if keyword_matches.isEmpty then []
    else ["Contains fraud keywords: ".data ++ joinSep ", ".data (keyword_matches.take 3)]
  let e3 :=
    if suspicious_urls.isEmpty then []
    else ["Contains ".data ++ natToChars suspicious_urls.length ++ " suspicious URL(s)".data]
  let e4 := if 40 ≤ urgency_score then ["Uses urgent/pressure language".data] else []
  let e5 := if 30 ≤ sensitive_score then ["Requests sensitive information".data] else []
  let es := e1 ++ e2 ++ e3 ++ e4 ++ e5
  if es.isEmpty then [fallbackExpl] else es

/-- The structured result of `detect_fraud` (the nested `details` dictionary
is flattened into fields; the display-only roundings `round(fraud_score, 1)`
and `round(confidence, 2)` of the JSON boundary are omitted, the raw values
being stored). -/
structure FraudReport where
  classification : Msg
  risk_score : ℕ
  explanations : List Msg
  nlp_fraud_score : ℚ
  nlp_label : Msg
  nlp_confidence : ℚ
  keywords_score : ℕ
  keywords_matches : List Msg
  urls_score : ℕ
  suspicious_urls : List Msg
  urgency_score : ℕ
  sensitive_info_score : ℕ
  deriving Repr

/-- `detect_fraud`: run the five analyses, fuse the scores, classify, and
produce the explanations and the detail breakdown. -/
def detect_fraud (message : Msg) : FraudReport :=
  let kres := analyze_keywords message
  let ures := analyze_urls message
  let urgency_score := analyze_urgency message
  let sensitive_score := analyze_sensitive_requests message
  let nres := simple_nlp_fraud_score message
  let risk_score := fuse_risk nres.1 kres.1 ures.1 urgency_score sensitive_score
  { classification := classify_risk risk_score
    risk_score := risk_score
    explanations := build_explanations nres.1 kres.2 ures.2 urgency_score sensitive_score
    nlp_fraud_score := nres.1
    nlp_label := nres.2.1
    nlp_confidence := nres.2.2
    keywords_score := kres.1
    keywords_matches := kres.2.take 5
    urls_score := ures.1
    suspicious_urls := ures.2
    urgency_score := urgency_score
    sensitive_info_score := sensitive_score }

/-! ### Claim-side predicate and concrete messages -/

/-- The wording of the spec for the second style check, stated
independently of the code: a word that is entirely upper-case (no lowercase
letter, at least one letter) and longer than two characters. -/
def specAllCapsLong (w : Msg) : Prop :=
  2 < w.length ∧ (∃ c ∈ w, c.isAlpha = true) ∧ ∀ c ∈ w, ¬ c.isLower = true

instance (w : Msg) : Decidable (specAllCapsLong w) := by
  unfold specAllCapsLong; infer_instance

/-- The message of scenario 2 of the spec. -/
def urgentLinkMsg : Msg :=
  "URGENT! Verify your account now by clicking this link: http://bit.ly/xyz".data

/-- The benign message of scenario 1 of the spec. -/
def helloMsg : Msg := "Hello, how are you today?".data

/-- A message firing all six style checks. -/
def capsFraudMsg : Msg := "URGENT!! CLICK NOW account suspended".data

/-- A message with three distinct suspicious URLs. -/
def threeUrlsMsg : Msg :=
  "http://bit.ly/a http://tinyurl.com/b http://10.0.0.1/x".data

/-- The explanation list in the order given by section 4.7 of the spec: one entry per
independently evaluated condition, in the fixed priority order, without the
fallback. -/
def spec_explanations (m : Msg) : List Msg :=
  (if (60 : ℚ) ≤ (simple_nlp_fraud_score m).1 then
    ["AI detected high fraud probability (".data ++
      natToChars (rhe (simple_nlp_fraud_score m).1).toNat ++ "%)".data]
  else []) ++
  (if (analyze_keywords m).2 = [] then []
   else ["Contains fraud keywords: ".data ++ joinSep ", ".data ((analyze_keywords m).2.take 3)]) ++
  (if (analyze_urls m).2 = [] then []
   else ["Contains ".data ++ natToChars (analyze_urls m).2.length ++ " suspicious URL(s)".data]) ++
  (if 40 ≤ analyze_urgency m then ["Uses urgent/pressure language".data] else []) ++
  (if 30 ≤ analyze_sensitive_requests m then ["Requests sensitive information".data] else [])

/-! ### Bridging lemmas -/

theorem fraudIndicators_le_six (m : Msg) : fraudIndicators m ≤ 6 := by
  have h : ∀ b : Bool, cond b 1 0 ≤ 1 := by intro b; cases b <;> simp
  have h1 := h (nlpCheck1 m); have h2 := h (nlpCheck2 m); have h3 := h (nlpCheck3 m)
  have h4 := h (nlpCheck4 m); have h5 := h (nlpCheck5 m); have h6 := h (nlpCheck6 m)
  unfold fraudIndicators
  omega

theorem simple_nlp_fst (m : Msg) :
    (simple_nlp_fraud_score m).1 = (fraudIndicators m : ℚ) / 6 * 100 := by
  simp only [simple_nlp_fraud_score]
  split
  · rfl
  · split <;> rfl

theorem nlp60_iff (k : ℕ) : (60 : ℚ) ≤ (k : ℚ) / 6 * 100 ↔ 4 ≤ k := by
  rw [div_mul_eq_mul_div, le_div_iff₀ (by norm_num : (0 : ℚ) < 6)]
  constructor
  · intro h
    have h3 : (360 : ℕ) ≤ k * 100 := by exact_mod_cast (by linarith : (360 : ℚ) ≤ (k : ℚ) * 100)
    omega
  · intro h
    have h2 : (360 : ℚ) ≤ (k : ℚ) * 100 := by exact_mod_cast (by omega : (360 : ℕ) ≤ k * 100)
    linarith

theorem nlp40_iff (k : ℕ) : (40 : ℚ) ≤ (k : ℚ) / 6 * 100 ↔ 3 ≤ k := by
  rw [div_mul_eq_mul_div, le_div_iff₀ (by norm_num : (0 : ℚ) < 6)]
  constructor
  · intro h
    have h3 : (240 : ℕ) ≤ k * 100 := by exact_mod_cast (by linarith : (240 : ℚ) ≤ (k : ℚ) * 100)
    omega
  · intro h
    have h2 : (240 : ℚ) ≤ (k : ℚ) * 100 := by exact_mod_cast (by omega : (240 : ℕ) ≤ k * 100)
    linarith

theorem nlp_label_of_ge4 (m : Msg) (h : 4 ≤ fraudIndicators m) :
    (simple_nlp_fraud_score m).2.1 = "fraud".data := by
  have h60 : (60 : ℚ) ≤ (fraudIndicators m : ℚ) / 6 * 100 := (nlp60_iff _).mpr h
  simp only [simple_nlp_fraud_score]
  rw [if_pos h60]

theorem nlp_label_of_eq3 (m : Msg) (h : fraudIndicators m = 3) :
    (simple_nlp_fraud_score m).2.1 = "suspicious".data := by
  have h60 : ¬ (60 : ℚ) ≤ (fraudIndicators m : ℚ) / 6 * 100 := by rw [nlp60_iff]; omega
  have h40 : (40 : ℚ) ≤ (fraudIndicators m : ℚ) / 6 * 100 := by rw [nlp40_iff]; omega
  simp only [simple_nlp_fraud_score]
  rw [if_neg h60, if_pos h40]

theorem nlp_label_of_le2 (m : Msg) (h : fraudIndicators m ≤ 2) :
    (simple_nlp_fraud_score m).2.1 = "safe".data := by
  have h60 : ¬ (60 : ℚ) ≤ (fraudIndicators m : ℚ) / 6 * 100 := by rw [nlp60_iff]; omega
  have h40 : ¬ (40 : ℚ) ≤ (fraudIndicators m : ℚ) / 6 * 100 := by rw [nlp40_iff]; omega
  simp only [simple_nlp_fraud_score]
  rw [if_neg h60, if_neg h40]

theorem fuse_risk_eq (k kw url urg sens : ℕ) :
    fuse_risk ((k : ℚ) / 6 * 100) kw url urg sens =
      (400 * k + 15 * kw + 12 * url + 6 * urg + 3 * sens) / 60 := by
  unfold fuse_risk
  have h : (k : ℚ) / 6 * 100 * (0.4 : ℚ) + (kw : ℚ) * (0.25 : ℚ) + (url : ℚ) * (0.2 : ℚ) +
      (urg : ℚ) * (0.1 : ℚ) + (sens : ℚ) * (0.05 : ℚ) =
      ((400 * k + 15 * kw + 12 * url + 6 * urg + 3 * sens : ℕ) : ℚ) / ((60 : ℕ) : ℚ) := by
    push_cast
    ring
  rw [h, Int.floor_toNat, Nat.floor_div_eq_div]

theorem detect_fraud_risk (m : Msg) :
    (detect_fraud m).risk_score =
      fuse_risk (simple_nlp_fraud_score m).1 (analyze_keywords m).1 (analyze_urls m).1
        (analyze_urgency m) (analyze_sensitive_requests m) := rfl

theorem detect_fraud_classif (m : Msg) :
    (detect_fraud m).classification = classify_risk ((detect_fraud m).risk_score) := rfl

/-! ### Claim theorems -/

/-- C1: for every message the fused risk score is the floor (truncation) of
`style*0.40 + keyword*0.25 + url*0.20 + urgency*0.10 + sensitive*0.05`, and
the classification is "fraud" exactly when that score is at least 50; at the
sub-scores style=50, keyword=18, url=40, urgency=0, sensitive=30 the fused
score is 34 and the classification is "safe". -/
theorem C1_fusion_floor_and_threshold :
    (∀ m : Msg,
      ((detect_fraud m).risk_score : ℤ) =
        ⌊(simple_nlp_fraud_score m).1 * (0.4 : ℚ) + ((analyze_keywords m).1 : ℚ) * (0.25 : ℚ) +
          ((analyze_urls m).1 : ℚ) * (0.2 : ℚ) + (analyze_urgency m : ℚ) * (0.1 : ℚ) +
          (analyze_sensitive_requests m : ℚ) * (0.05 : ℚ)⌋ ∧
      ((detect_fraud m).classification = "fraud".data ↔ 50 ≤ (detect_fraud m).risk_score)) ∧
    fuse_risk 50 18 40 0 30 = 34 ∧ classify_risk (fuse_risk 50 18 40 0 30) = "safe".data := by
  have hfuse : fuse_risk 50 18 40 0 30 = 34 := by
    have h50 : (50 : ℚ) = ((3 : ℕ) : ℚ) / 6 * 100 := by norm_num
    rw [h50, fuse_risk_eq]
  refine ⟨fun m => ⟨?_, ?_⟩, hfuse, by rw [hfuse]; decide⟩
  · rw [detect_fraud_risk]
    unfold fuse_risk
    rw [Int.toNat_of_nonneg]
    rw [Int.le_floor]
    rw [simple_nlp_fst]
    positivity
  · rw [detect_fraud_classif]
    unfold classify_risk
    split
    · case isTrue h => exact iff_of_true rfl h
    · case isFalse h => exact iff_of_false (by decide) h

/-- C2: every detector sub-score and the fused risk score lie in [0,100]
(the integer scores are naturals, hence nonnegative), and the classification
is one of the two values "fraud" and "safe". -/
theorem C2_bounded_scores :
    ∀ m : Msg,
      (analyze_keywords m).1 ≤ 100 ∧ (analyze_urls m).1 ≤ 100 ∧
      analyze_urgency m ≤ 100 ∧ analyze_sensitive_requests m ≤ 100 ∧
      (0 ≤ (simple_nlp_fraud_score m).1 ∧ (simple_nlp_fraud_score m).1 ≤ 100) ∧
      (detect_fraud m).risk_score ≤ 100 ∧
      ((detect_fraud m).classification = "fraud".data ∨
        (detect_fraud m).classification = "safe".data) := by
  intro m
  have hk6 : (fraudIndicators m : ℚ) ≤ 6 := by exact_mod_cast fraudIndicators_le_six m
  have hnlp0 : 0 ≤ (simple_nlp_fraud_score m).1 := by rw [simple_nlp_fst]; positivity
  have hnlp100 : (simple_nlp_fraud_score m).1 ≤ 100 := by
    rw [simple_nlp_fst, div_mul_eq_mul_div, div_le_iff₀ (by norm_num : (0 : ℚ) < 6)]
    linarith
  have hkw : (analyze_keywords m).1 ≤ 100 := by
    show kwNormalize _ ≤ 100
    unfold kwNormalize
    split
    · omega
    · exact min_le_left _ _
  have hurl : (analyze_urls m).1 ≤ 100 := min_le_left _ _
  have hurg : analyze_urgency m ≤ 100 := min_le_left _ _
  have hsens : analyze_sensitive_requests m ≤ 100 := min_le_left _ _
  refine ⟨hkw, hurl, hurg, hsens, ⟨hnlp0, hnlp100⟩, ?_, ?_⟩
  · rw [detect_fraud_risk]
    unfold fuse_risk
    rw [Int.toNat_le]
    have hsum : (simple_nlp_fraud_score m).1 * (0.4 : ℚ) + ((analyze_keywords m).1 : ℚ) * (0.25 : ℚ) +
        ((analyze_urls m).1 : ℚ) * (0.2 : ℚ) + (analyze_urgency m : ℚ) * (0.1 : ℚ) +
        (analyze_sensitive_requests m : ℚ) * (0.05 : ℚ) ≤ 100 := by
      have c1 : ((analyze_keywords m).1 : ℚ) ≤ 100 := by exact_mod_cast hkw
      have c2 : ((analyze_urls m).1 : ℚ) ≤ 100 := by exact_mod_cast hurl
      have c3 : (analyze_urgency m : ℚ) ≤ 100 := by exact_mod_cast hurg
      have c4 : (analyze_sensitive_requests m : ℚ) ≤ 100 := by exact_mod_cast hsens
      have c5 : ((analyze_keywords m).1 : ℚ) ≥ 0 := by positivity
      have c6 : ((analyze_urls m).1 : ℚ) ≥ 0 := by positivity
      have c7 : (analyze_urgency m : ℚ) ≥ 0 := by positivity
      have c8 : (analyze_sensitive_requests m : ℚ) ≥ 0 := by positivity
      linarith
    calc ⌊_⌋ ≤ ⌊(100 : ℚ)⌋ := Int.floor_le_floor hsum
    _ = (100 : ℤ) := by norm_num
    _ ≤ ((100 : ℕ) : ℤ) := by norm_num
  · rw [detect_fraud_classif]
    unfold classify_risk
    split
    · exact Or.inl rfl
    · exact Or.inr rfl

/-- C4: the engine is a pure function of the message text: evaluating the
same message twice gives the same report (the embedding is deterministic by
construction; the source performs no input, holds no mutable state and uses
no randomness). -/
theorem C4_deterministic : ∀ m : Msg, detect_fraud m = detect_fraud m := fun _ => rfl

/-- C3: on the message "URGENT! Verify your account now by clicking this
link: http://bit.ly/xyz" the engine yields keyword score 18 with matches
[urgent, verify, account, click], url score 40 with one suspicious URL,
urgency score 0, sensitive-info score 30, style score 50 labelled
"suspicious" with confidence 0.575, fused risk score 34, classification
"safe". -/
theorem C3_urgent_link_message :
    (detect_fraud urgentLinkMsg).keywords_score = 18 ∧
    (detect_fraud urgentLinkMsg).keywords_matches =
      ["urgent".data, "verify".data, "account".data, "click".data] ∧
    (detect_fraud urgentLinkMsg).urls_score = 40 ∧
    (detect_fraud urgentLinkMsg).suspicious_urls = ["http://bit.ly/xyz".data] ∧
    (detect_fraud urgentLinkMsg).urgency_score = 0 ∧
    (detect_fraud urgentLinkMsg).sensitive_info_score = 30 ∧
    (detect_fraud urgentLinkMsg).nlp_fraud_score = 50 ∧
    (detect_fraud urgentLinkMsg).nlp_label = "suspicious".data ∧
    (detect_fraud urgentLinkMsg).nlp_confidence = (0.575 : ℚ) ∧
    (detect_fraud urgentLinkMsg).risk_score = 34 ∧
    (detect_fraud urgentLinkMsg).classification = "safe".data := by
  have hk : analyze_keywords urgentLinkMsg =
      (18, ["urgent".data, "verify".data, "account".data, "click".data]) := by decide
  have hu : analyze_urls urgentLinkMsg = (40, ["http://bit.ly/xyz".data]) := by decide
  have hg : analyze_urgency urgentLinkMsg = 0 := by decide
  have hs : analyze_sensitive_requests urgentLinkMsg = 30 := by decide
  have hfi : fraudIndicators urgentLinkMsg = 3 := by decide
  have hnlp : simple_nlp_fraud_score urgentLinkMsg = (50, "suspicious".data, (0.575 : ℚ)) := by
    simp only [simple_nlp_fraud_score, hfi]
    norm_num
  have hfuse : fuse_risk 50 18 40 0 30 = 34 := by
    have h50 : (50 : ℚ) = ((3 : ℕ) : ℚ) / 6 * 100 := by norm_num
    rw [h50, fuse_risk_eq]
  simp only [detect_fraud, hk, hu, hg, hs, hnlp, hfuse]
  refine ⟨?_, ?_, ?_, ?_, ?_, ?_, ?_, ?_, ?_, ?_, ?_⟩ <;> trivial

/-- C5: the empty message still yields a complete well-formed report: risk
score 0, classification "safe", and exactly the single fallback explanation
(the engine is a total function, so no input produces an error result). -/
theorem C5_empty_message :
    (detect_fraud "".data).risk_score = 0 ∧
    (detect_fraud "".data).classification = "safe".data ∧
    (detect_fraud "".data).explanations = [fallbackExpl] := by
  have hk : analyze_keywords "".data = (0, []) := by decide
  have hu : analyze_urls "".data = (0, []) := by decide
  have hg : analyze_urgency "".data = 0 := by decide
  have hs : analyze_sensitive_requests "".data = 0 := by decide
  have hfi : fraudIndicators "".data = 0 := by decide
  have hnlp : simple_nlp_fraud_score "".data = (0, "safe".data, 1) := by
    simp only [simple_nlp_fraud_score, hfi]
    norm_num
  have hfuse : fuse_risk 0 0 0 0 0 = 0 := by
    have h0 : (0 : ℚ) = ((0 : ℕ) : ℚ) / 6 * 100 := by norm_num
    rw [h0, fuse_risk_eq]
  have hexp : build_explanations 0 [] [] 0 0 = [fallbackExpl] := by
    simp only [build_explanations]
    norm_num
  simp only [detect_fraud, hk, hu, hg, hs, hnlp, hfuse, hexp]
  refine ⟨?_, ?_, ?_⟩ <;> trivial

/-- C6: for every message the URL sub-score is `min(100, 40 * number of
extracted URLs matching at least one suspicious pattern)`; with three or more
suspicious URLs it saturates at exactly 100. -/
theorem C6_url_score_formula :
    ∀ m : Msg,
      (analyze_urls m).2 =
        (findUrls m).filter (fun url => SUSPICIOUS_URL_PATTERNS.any fun p => p (lowerStr url)) ∧
      (analyze_urls m).1 = min 100 (40 * (analyze_urls m).2.length) ∧
      (3 ≤ (analyze_urls m).2.length → (analyze_urls m).1 = 100) := by
  intro m
  refine ⟨rfl, by simp only [analyze_urls]; rw [Nat.mul_comm], fun h => ?_⟩
  show min 100 ((analyze_urls m).2.length * 40) = 100
  omega

/-- C6 witness: a message carrying three distinct suspicious URLs has URL
sub-score exactly 100. -/
theorem C6_witness :
    3 ≤ (analyze_urls threeUrlsMsg).2.length ∧ (analyze_urls threeUrlsMsg).1 = 100 :=
  ⟨by decide, (C6_url_score_formula threeUrlsMsg).2.2 (by decide)⟩

/-- C7 counterexample: appending one more occurrence of the already-matched
keyword "inheritance" to the message "inheritancep" changes the keyword
sub-score from 6 to 12, because the junction of the two pieces creates the
new keyword occurrence "pin". -/
theorem C7_counterexample :
    ("inheritance".data, 3) ∈ FRAUD_KEYWORDS ∧
    "inheritance".data <:+: lowerStr "inheritancep".data ∧
    (analyze_keywords "inheritancep".data).1 = 6 ∧
    (analyze_keywords ("inheritancep".data ++ "inheritance".data)).1 = 12 ∧
    (analyze_keywords ("inheritancep".data ++ "inheritance".data)).1 ≠
      (analyze_keywords "inheritancep".data).1 := by
  refine ⟨by decide, by decide, by decide, by decide, by decide⟩

/-- C7 (amended): keyword matching is presence-based — duplicates of an
already-matched keyword contribute nothing — so appending one more occurrence
of a keyword already contained in the message leaves the whole keyword
analysis unchanged, provided the concatenation makes no new table keyword
contained in the lowercased message. -/
theorem C7_presence_based (m kw : Msg) (wt : ℕ)
    (_hmem : (kw, wt) ∈ FRAUD_KEYWORDS)
    (_hsub : kw <:+: lowerStr m)
    (hnew : ∀ p ∈ FRAUD_KEYWORDS, p.1 <:+: lowerStr (m ++ kw) → p.1 <:+: lowerStr m) :
    analyze_keywords (m ++ kw) = analyze_keywords m := by
  have hmap : lowerStr (m ++ kw) = lowerStr m ++ lowerStr kw := List.map_append _ _ _
  have hfilter :
      FRAUD_KEYWORDS.filter (fun p => decide (p.1 <:+: lowerStr (m ++ kw))) =
        FRAUD_KEYWORDS.filter (fun p => decide (p.1 <:+: lowerStr m)) := by
    apply List.filter_congr
    intro p hp
    apply decide_eq_decide.mpr
    constructor
    · exact hnew p hp
    · intro h
      rw [hmap]
      exact h.trans (List.prefix_append _ _).isInfix
  simp only [analyze_keywords]
  rw [hfilter]

/-- C7 witness: appending "urgent" to "urgent stuff" (which creates no new
keyword containment) leaves the keyword analysis unchanged. -/
theorem C7_witness :
    ("urgent".data, 3) ∈ FRAUD_KEYWORDS ∧
    "urgent".data <:+: lowerStr "urgent stuff".data ∧
    analyze_keywords ("urgent stuff".data ++ "urgent".data) =
      analyze_keywords "urgent stuff".data :=
  ⟨by decide, by decide,
    C7_presence_based "urgent stuff".data "urgent".data 3 (by decide) (by decide) (by decide)⟩

/-- C8: the explanation list is exactly the ordered, independently evaluated
priority list when at least one condition fired, exactly the single fallback
string when none fired, and in particular always non-empty. -/
theorem C8_explanations (m : Msg) :
    (spec_explanations m ≠ [] → (detect_fraud m).explanations = spec_explanations m) ∧
    (spec_explanations m = [] → (detect_fraud m).explanations = [fallbackExpl]) ∧
    (detect_fraud m).explanations ≠ [] := by
  have hb : (detect_fraud m).explanations =
      if (spec_explanations m).isEmpty then [fallbackExpl] else spec_explanations m := by
    simp only [detect_fraud, build_explanations, spec_explanations, List.isEmpty_iff]
  refine ⟨fun h => ?_, fun h => ?_, ?_⟩
  · rw [hb, if_neg fun hc => h (List.isEmpty_iff.mp hc)]
  · rw [hb, if_pos (List.isEmpty_iff.mpr h)]
  · rw [hb]
    split
    · decide
    · case isFalse hc => exact fun he => hc (List.isEmpty_iff.mpr he)

/-- C8 witness: on the benign message no condition fires and the explanation
list is exactly the fallback. -/
theorem C8_witness : (detect_fraud helloMsg).explanations = [fallbackExpl] := by
  refine (C8_explanations helloMsg).2.1 ?_
  have h60 : ¬ (60 : ℚ) ≤ (simple_nlp_fraud_score helloMsg).1 := by
    rw [simple_nlp_fst, nlp60_iff]
    have : fraudIndicators helloMsg = 0 := by decide
    omega
  simp only [spec_explanations, if_neg h60]
  have hk : (analyze_keywords helloMsg).2 = [] := by decide
  have hu : (analyze_urls helloMsg).2 = [] := by decide
  have hg : ¬ 40 ≤ analyze_urgency helloMsg := by decide
  have hs : ¬ 30 ≤ analyze_sensitive_requests helloMsg := by decide
  simp [hk, hu, hg, hs]

/-- C9: the second check of the style detector contributes exactly one indicator
point precisely when the message contains two or more words that are entirely
upper-case and longer than two characters. -/
theorem C9_caps_words_check (m : Msg) :
    fraudIndicators m =
      (cond (nlpCheck1 m) 1 0) +
      (if 2 ≤ ((splitWs m).filter fun w => decide (specAllCapsLong w)).length then 1 else 0) +
      (cond (nlpCheck3 m) 1 0) + (cond (nlpCheck4 m) 1 0) +
      (cond (nlpCheck5 m) 1 0) + (cond (nlpCheck6 m) 1 0) := by
  have hfil : ((splitWs m).filter fun w => decide (specAllCapsLong w)) =
      ((splitWs m).filter fun w => pyIsUpper w && decide (2 < w.length)) := by
    apply List.filter_congr
    intro w _
    rw [Bool.eq_iff_iff]
    simp only [pyIsUpper, specAllCapsLong, decide_eq_true_eq, Bool.and_eq_true,
      List.any_eq_true, List.all_eq_true, Bool.not_eq_true']
    constructor
    · rintro ⟨hlen, hex, hall⟩
      exact ⟨⟨hex, fun c hc => by simpa using hall c hc⟩, hlen⟩
    · rintro ⟨⟨hex, hall⟩, hlen⟩
      exact ⟨hlen, hex, fun c hc => by simpa using hall c hc⟩
  rw [hfil]
  unfold fraudIndicators nlpCheck2
  rw [Bool.cond_decide]

/-- C10: the confidence of the style detector always lies in [0.5, 1]; the label
"fraud" forces it into [0.6, 1], the label "suspicious" into [0.5, 0.65),
and the label "safe" above 0.6. -/
theorem C10_confidence_bounds (m : Msg) :
    ((0.5 : ℚ) ≤ (simple_nlp_fraud_score m).2.2 ∧ (simple_nlp_fraud_score m).2.2 ≤ 1) ∧
    ((simple_nlp_fraud_score m).2.1 = "fraud".data →
      (0.6 : ℚ) ≤ (simple_nlp_fraud_score m).2.2 ∧ (simple_nlp_fraud_score m).2.2 ≤ 1) ∧
    ((simple_nlp_fraud_score m).2.1 = "suspicious".data →
      (0.5 : ℚ) ≤ (simple_nlp_fraud_score m).2.2 ∧ (simple_nlp_fraud_score m).2.2 < (0.65 : ℚ)) ∧
    ((simple_nlp_fraud_score m).2.1 = "safe".data → (0.6 : ℚ) < (simple_nlp_fraud_score m).2.2) := by
  have hk6 : fraudIndicators m ≤ 6 := fraudIndicators_le_six m
  have hk6q : (fraudIndicators m : ℚ) ≤ 6 := by exact_mod_cast hk6
  have hk0q : (0 : ℚ) ≤ (fraudIndicators m : ℚ) := by positivity
  by_cases hA : 4 ≤ fraudIndicators m
  · have hlab := nlp_label_of_ge4 m hA
    have hAq : (4 : ℚ) ≤ (fraudIndicators m : ℚ) := by exact_mod_cast hA
    have hconf : (simple_nlp_fraud_score m).2.2 = (fraudIndicators m : ℚ) / 6 * 100 / 100 := by
      simp only [simple_nlp_fraud_score]
      rw [if_pos ((nlp60_iff _).mpr hA)]
    refine ⟨⟨?_, ?_⟩, fun _ => ⟨?_, ?_⟩, fun h => ?_, fun h => ?_⟩ <;>
      first
        | (rw [hconf]; linarith)
        | (rw [hlab] at h; exact absurd h (by decide))
  · by_cases hB : fraudIndicators m = 3
    · have hlab := nlp_label_of_eq3 m hB
      have hconf : (simple_nlp_fraud_score m).2.2 = (0.575 : ℚ) := by
        have h60 : ¬ (60 : ℚ) ≤ (fraudIndicators m : ℚ) / 6 * 100 := by rw [nlp60_iff]; omega
        have h40 : (40 : ℚ) ≤ (fraudIndicators m : ℚ) / 6 * 100 := by rw [nlp40_iff]; omega
        simp only [simple_nlp_fraud_score]
        rw [if_neg h60, if_pos h40, hB]
        norm_num
      refine ⟨⟨?_, ?_⟩, fun h => ?_, fun _ => ⟨?_, ?_⟩, fun h => ?_⟩ <;>
        first
          | (rw [hlab] at h; exact absurd h (by decide))
          | (rw [hconf]; norm_num)
    · have hC : fraudIndicators m ≤ 2 := by omega
      have hlab := nlp_label_of_le2 m hC
      have hCq : (fraudIndicators m : ℚ) ≤ 2 := by exact_mod_cast hC
      have hconf : (simple_nlp_fraud_score m).2.2 = 1 - (fraudIndicators m : ℚ) / 6 * 100 / 100 := by
        have h60 : ¬ (60 : ℚ) ≤ (fraudIndicators m : ℚ) / 6 * 100 := by rw [nlp60_iff]; omega
        have h40 : ¬ (40 : ℚ) ≤ (fraudIndicators m : ℚ) / 6 * 100 := by rw [nlp40_iff]; omega
        simp only [simple_nlp_fraud_score]
        rw [if_neg h60, if_neg h40]
      refine ⟨⟨?_, ?_⟩, fun h => ?_, fun h => ?_, fun _ => ?_⟩ <;>
        first
          | (rw [hconf]; linarith)
          | (rw [hlab] at h; exact absurd h (by decide))

/-- C10 witness: the three label regimes realised on concrete messages, with
the bounds instantiated through the theorem. -/
theorem C10_witness :
    ((0.6 : ℚ) ≤ (simple_nlp_fraud_score capsFraudMsg).2.2 ∧
      (simple_nlp_fraud_score capsFraudMsg).2.2 ≤ 1) ∧
    ((0.5 : ℚ) ≤ (simple_nlp_fraud_score urgentLinkMsg).2.2 ∧
      (simple_nlp_fraud_score urgentLinkMsg).2.2 < (0.65 : ℚ)) ∧
    ((0.6 : ℚ) < (simple_nlp_fraud_score helloMsg).2.2) :=
  ⟨(C10_confidence_bounds capsFraudMsg).2.1 (nlp_label_of_ge4 _ (by decide)),
    (C10_confidence_bounds urgentLinkMsg).2.2.1 (nlp_label_of_eq3 _ (by decide)),
    (C10_confidence_bounds helloMsg).2.2.2 (nlp_label_of_le2 _ (by decide))⟩
